import Mathlib

/-!
Shallow embedding of the Jellyfin/Justwatch webhook service.

The embedding follows the Python sources:
  * `utils.py`          : configuration values; `write_default_config` stores
    `PROVIDER_LIST` through `ConfigParser.read_dict`, which applies Python
    `str()` to the list, so the stored (and re-read) value is the textual
    rendering `['Netflix basic with Ads', ...]`, a single string.
  * `jellyfin_checker.py`: `get_tmdbid_from_filename` (the regex
    `(?<=\[tmdbid-)\d+(?=\])` searched left to right) and `get_providers`
    (one outbound GET, `RequestException` caught and turned into `[]`,
    `response.json()` parsed outside the `try` block).
  * `request_handler.py` : the Flask webhook `webhook_listener`,
    `check_movie_on_services` and `update_request_status`.

Outbound HTTP behaviour is modelled by an environment value describing what
the network would answer; exceptions that the Python code would let escape
are modelled by `Except.error`.  The regex class `\d` of a Python str
pattern (no re.ASCII flag is set in the source) matches every Unicode
decimal digit, category Nd; it is modelled by `isPyDigit`, built from the
Nd ranges of the Unicode 14.0 character database that CPython 3.11 ships.
-/

/-- Does the character list start with the pattern?  Inner step of the
Python substring test `needle in hay` for strings. -/
def listStartsWith : List Char → List Char → Bool
  | _, [] => true
  | [], _ :: _ => false
  | a :: s, b :: pat => a == b && listStartsWith s pat

/-- Does the character list contain the pattern as a contiguous run?
Models Python `needle in hay` on strings. -/
def listHasSub : List Char → List Char → Bool
  | [], pat => pat.isEmpty
  | c :: s, pat => listStartsWith (c :: s) pat || listHasSub s pat

/-- Python `needle in hay` for strings (substring containment). -/
def strContains (hay needle : String) : Bool :=
  listHasSub hay.data needle.data

/-- The single-quote character that Python `repr` puts around a plain str. -/
def pyQuote : String := String.mk [Char.ofNat 39]

/-- Python `repr` of a provider-name string.  None of the configured names
contains a quote or a backslash, so no escaping arises. -/
def pyRepr (s : String) : String := pyQuote ++ s ++ pyQuote

/-- Python `str()` of a list of strings, exactly what
`ConfigParser.read_dict` stores when `write_default_config` assigns the
`PROVIDER_LIST` list (utils.py): `['A', 'B']`. -/
def pyStrOfList (xs : List String) : String :=
  "[" ++ String.intercalate ", " (xs.map pyRepr) ++ "]"

/-- The allow-list written by `write_default_config` in utils.py. -/
def DEFAULT_PROVIDER_LIST : List String :=
  ["Netflix basic with Ads", "Hulu", "Disney Plus", "Amazon Prime Video",
   "Max", "Apple TV", "Apple TV Plus"]

/-- The string value actually stored for PROVIDER_LIST in the default config
file and later returned by `get_config_value("PROVIDER_LIST")`. -/
def writtenProviderList : String := pyStrOfList DEFAULT_PROVIDER_LIST

/-- The characters of the fixed lookbehind text `[tmdbid-` of the regex in
`get_tmdbid_from_filename` (jellyfin_checker.py). -/
def tagChars : List Char := "[tmdbid-".data

/-- The codepoint ranges of Unicode general category Nd (decimal digits),
Unicode 14.0 — the character set that `\d` matches in a CPython 3.11 str
regex without the re.ASCII flag.  Every range is a contiguous run of the
digits 0 to 9 of one script. -/
def ndRanges : List (Nat × Nat) :=
  [(0x30, 0x39), (0x660, 0x669), (0x6F0, 0x6F9), (0x7C0, 0x7C9),
   (0x966, 0x96F), (0x9E6, 0x9EF), (0xA66, 0xA6F), (0xAE6, 0xAEF),
   (0xB66, 0xB6F), (0xBE6, 0xBEF), (0xC66, 0xC6F), (0xCE6, 0xCEF),
   (0xD66, 0xD6F), (0xDE6, 0xDEF), (0xE50, 0xE59), (0xED0, 0xED9),
   (0xF20, 0xF29), (0x1040, 0x1049), (0x1090, 0x1099), (0x17E0, 0x17E9),
   (0x1810, 0x1819), (0x1946, 0x194F), (0x19D0, 0x19D9), (0x1A80, 0x1A89),
   (0x1A90, 0x1A99), (0x1B50, 0x1B59), (0x1BB0, 0x1BB9), (0x1C40, 0x1C49),
   (0x1C50, 0x1C59), (0xA620, 0xA629), (0xA8D0, 0xA8D9), (0xA900, 0xA909),
   (0xA9D0, 0xA9D9), (0xA9F0, 0xA9F9), (0xAA50, 0xAA59), (0xABF0, 0xABF9),
   (0xFF10, 0xFF19), (0x104A0, 0x104A9), (0x10D30, 0x10D39),
   (0x11066, 0x1106F), (0x110F0, 0x110F9), (0x11136, 0x1113F),
   (0x111D0, 0x111D9), (0x112F0, 0x112F9), (0x11450, 0x11459),
   (0x114D0, 0x114D9), (0x11650, 0x11659), (0x116C0, 0x116C9),
   (0x11730, 0x11739), (0x118E0, 0x118E9), (0x11950, 0x11959),
   (0x11C50, 0x11C59), (0x11D50, 0x11D59), (0x11DA0, 0x11DA9),
   (0x16A60, 0x16A69), (0x16AC0, 0x16AC9), (0x16B50, 0x16B59),
   (0x1D7CE, 0x1D7FF), (0x1E140, 0x1E149), (0x1E2F0, 0x1E2F9),
   (0x1E950, 0x1E959), (0x1FBF0, 0x1FBF9)]

/-- Python `\d` on a str pattern: membership of the character in Unicode
category Nd. -/
def isPyDigit (c : Char) : Bool :=
  ndRanges.any (fun r => r.fst ≤ c.toNat && c.toNat ≤ r.snd)

/-- One attempt of the regex `(?<=\[tmdbid-)\d+(?=\])` at a single start
position.  `pre` holds the characters before the position, most recent
first; `rest` the characters from the position on.  The lookbehind demands
that the eight preceding characters spell `[tmdbid-`; `\d+` greedily takes
the maximal digit run, and the lookahead demands a `]` right after it.  A
shorter digit prefix is never retried by backtracking, because the character
following it would be an Nd digit and never `]`. -/
def tryMatch (pre rest : List Char) : Option (List Char) :=
  if (pre.take 8).reverse = tagChars then
    let ds := rest.takeWhile isPyDigit
    if ds = [] then none
    else
      match rest.dropWhile isPyDigit with
      | [] => none
      | c :: _ => if c = ']' then some ds else none
  else none

/-- The left-to-right scan of `re.search`: try each start position in turn,
accumulating the passed characters (reversed) in `pre`. -/
def searchFrom : List Char → List Char → Option (List Char)
  | _, [] => none
  | pre, c :: rest =>
    match tryMatch pre (c :: rest) with
    | some ds => some ds
    | none => searchFrom (c :: pre) rest

/-- jellyfin_checker.get_tmdbid_from_filename: extract the TMDB ID using
`re.search(r"(?<=\[tmdbid-)\d+(?=\])", filename)`, returning the matched
digit run or None. -/
def get_tmdbid_from_filename (filename : String) : Option String :=
  (searchFrom [] filename.data).map String.mk

/-- The regex attempt of `get_tmdbid_from_filename` at start position `i`
of the input string. -/
def matchAtPos (s : String) (i : Nat) : Option (List Char) :=
  tryMatch ((s.data.take i).reverse) (s.data.drop i)

/-- Python exceptions that the embedded code can let escape. -/
inductive PyErr
  | requestException
  | jsonDecodeError
  | keyError (key : String)
deriving DecidableEq

deriving instance DecidableEq for Except

/-- What the watch-providers GET would produce.  `netError` is any
`requests.RequestException` (connection failure, timeout, or the non-2xx
raised by `raise_for_status`); `badJson` is a 2xx response whose body
`response.json()` cannot parse; `ok` is a parsed body, modelled by the map
from region code to the `provider_name` fields of its `flatrate` entries
(all the `.get` defaults collapse a missing `results`/region/`flatrate`
key to the empty list). -/
inductive LookupOutcome
  | netError
  | badJson
  | ok (results : List (String × List String))
deriving DecidableEq

/-- jellyfin_checker.get_providers, as a function of the configured
PROVIDER_LIST string and of the network outcome.  On `RequestException`
the except clause returns `[]`; `response.json()` runs outside the try
block, so a malformed body escapes as an exception; on success the
US flatrate names are filtered by `provider["provider_name"] in
PROVIDER_LIST` — a Python substring test, because the config value is the
string rendering of the list. -/
def get_providers (provider_list : String) (o : LookupOutcome) :
    Except PyErr (List String) :=
  match o with
  | .netError => .ok []
  | .badJson => .error .jsonDecodeError
  | .ok results =>
    let results_us := (List.lookup "US" results).getD []
    .ok (results_us.filter (fun name => strContains provider_list name))

/-- request_handler.check_movie_on_services, applied to the list returned
by a successful `get_providers`. -/
def check_movie_on_services (providers : List String) : Bool × List String :=
  if providers = [] then (false, []) else (true, providers)

/-- What a single `requests.post` of `update_request_status` would do:
raise a `RequestException`, or complete with a status code. -/
inductive PostOutcome
  | raise
  | status (code : Nat)
deriving DecidableEq

/-- An outbound HTTP call issued by the handler, recorded by its method
and full URL. -/
inductive Call
  | get (url : String)
  | post (url : String)
deriving DecidableEq

/-- The configuration values the handler modules read at import time. -/
structure Config where
  tmdb_url_base : String
  tmdb_api_key : String
  jellyseerr_url_base : String
  jellyseerr_api_key : String
  provider_list : String
deriving DecidableEq

/-- URL of the watch-providers GET in jellyfin_checker.get_providers. -/
def providersUrl (cfg : Config) (tmdbid : String) : String :=
  cfg.tmdb_url_base ++ "/movie/" ++ tmdbid ++ "/watch/providers?api_key="
    ++ cfg.tmdb_api_key

/-- URL of the status-update POST in
request_handler.update_request_status. -/
def requestStatusUrl (cfg : Config) (request_id status : String) : String :=
  cfg.jellyseerr_url_base ++ "/request/" ++ request_id ++ "/" ++ status

/-- The `media` object of the webhook payload; `tmdbId` is absent or a
string (Python `media.get("tmdbId", {})` maps an absent key to the falsy
`{}`, modelled by `none`). -/
structure Media where
  tmdbId : Option String
deriving DecidableEq

/-- The `request` object of the webhook payload. -/
structure ReqInfo where
  request_id : Option String
deriving DecidableEq

/-- The JSON payload fields the handler consumes
(`notification_type`, `media.tmdbId`, `request.request_id`), each possibly
absent. -/
structure Payload where
  notification_type : Option String
  media : Option Media
  request : Option ReqInfo
deriving DecidableEq

/-- The network environment of one webhook invocation: what the provider
lookup GET and the status-update POST would answer. -/
structure Env where
  lookup : LookupOutcome
  post : PostOutcome
deriving DecidableEq

/-- A JSON response body: `jsonify({"status": ..., "message": ...})` or
`jsonify({"error": ...})`. -/
inductive RespBody
  | statusMsg (status message : String)
  | errorBody (error : String)
deriving DecidableEq

/-- Outcome of one webhook invocation: the value returned to Flask (or the
exception that escaped the handler), together with the outbound HTTP calls
issued on the way, in order. -/
structure WebhookResult where
  result : Except PyErr (RespBody × Nat)
  calls : List Call
deriving DecidableEq

/-- Python truthiness of the value obtained for `tmdbid`: `{}` (absent,
modelled `none`) and the empty string are falsy. -/
def truthyStr : Option String → Bool
  | none => false
  | some s => !(s == "")

/-- request_handler.REJECT_MSG. -/
def REJECT_MSG : String :=
  "Movie is available on the following streaming services:"

/-- request_handler.ACCPET_MSG (name kept with the source's spelling). -/
def ACCPET_MSG : String :=
  "Movie is not available on any streaming services"

/-- request_handler.webhook_listener, line by line:
1. `notification_type == "TEST_NOTIFICATION"` short-circuits with
   `{"status": "received"}`, 200, and no outbound call.
2. `tmdbid = data.get("media", {}).get("tmdbId", {})`; a falsy value
   returns `{"error": "No TMDB ID provided"}`, 400, no outbound call.
3. `check_movie_on_services` calls `get_providers` (one GET); an exception
   there escapes the handler.
4. `request_id = data["request"]["request_id"]` raises `KeyError` if the
   key is absent.
5. Non-empty provider list: `update_request_status(request_id, "decline")`
   (one POST; a `requests.post` exception escapes) then
   `{"status": "rejected", "message": REJECT_MSG + joined + "."}`, 200.
   Empty list: the same with token `"approve"` and
   `{"status": "accepted", "message": ACCPET_MSG}`, 200 (Flask default
   code for a bare `jsonify` return). -/
def webhook_listener (cfg : Config) (data : Payload) (env : Env) :
    WebhookResult :=
  if data.notification_type == some "TEST_NOTIFICATION" then
    { result := .ok (.statusMsg "received" "Test notification received.", 200),
      calls := [] }
  else
    let media := data.media.getD ⟨none⟩
    let tmdbid := media.tmdbId
    if !(truthyStr tmdbid) then
      { result := .ok (.errorBody "No TMDB ID provided", 400), calls := [] }
    else
      let t := tmdbid.getD ""
      let lookupCall := Call.get (providersUrl cfg t)
      match get_providers cfg.provider_list env.lookup with
      | .error e => { result := .error e, calls := [lookupCall] }
      | .ok providers =>
        let av := check_movie_on_services providers
        match data.request with
        | none =>
          { result := .error (.keyError "request"), calls := [lookupCall] }
        | some req =>
          match req.request_id with
          | none =>
            { result := .error (.keyError "request_id"),
              calls := [lookupCall] }
          | some request_id =>
            if av.fst then
              let url := requestStatusUrl cfg request_id "decline"
              match env.post with
              | .raise =>
                { result := .error .requestException,
                  calls := [lookupCall, .post url] }
              | .status _ =>
                { result := .ok (.statusMsg "rejected"
                    (REJECT_MSG ++ " " ++ String.intercalate ", " av.snd
                      ++ "."), 200),
                  calls := [lookupCall, .post url] }
            else
              let url := requestStatusUrl cfg request_id "approve"
              match env.post with
              | .raise =>
                { result := .error .requestException,
                  calls := [lookupCall, .post url] }
              | .status _ =>
                { result := .ok (.statusMsg "accepted" ACCPET_MSG, 200),
                  calls := [lookupCall, .post url] }

/-- A concrete configuration for closed instances: the TMDB values are the
defaults of `write_default_config`; the Jellyseerr values are config
supplied and here fixed arbitrarily. -/
def testConfig : Config :=
  { tmdb_url_base := "https://api.themoviedb.org/3",
    tmdb_api_key := "7357404c261cefb23312ded89a07353e",
    jellyseerr_url_base := "http://jellyseerr.local",
    jellyseerr_api_key := "testkey",
    provider_list := writtenProviderList }

example : get_tmdbid_from_filename "[tmdbid-12345]" = some "12345" := by decide
example : get_tmdbid_from_filename "movie [tmdbid-603].mkv" = some "603" := by decide
example : get_tmdbid_from_filename "The.Matrix.1999.mkv" = none := by decide
example : get_tmdbid_from_filename "[tmdbid-123a]" = none := by decide
example : get_tmdbid_from_filename "[tmdbid-7][tmdbid-12345]" = some "7" := by decide
example :
    get_tmdbid_from_filename
      (String.mk ("[tmdbid-".data ++ [Char.ofNat 0x661] ++ [']'])) =
    some (String.mk [Char.ofNat 0x661]) := by decide
example :
    get_tmdbid_from_filename
      (String.mk ("[tmdbid-".data ++ [Char.ofNat 0x661] ++
        (']' :: "[tmdbid-12345]".data))) =
    some (String.mk [Char.ofNat 0x661]) := by decide
example : strContains writtenProviderList "Netflix" = true := by decide
example : strContains writtenProviderList "SomeObscureService" = false := by decide
example :
    webhook_listener testConfig
      ⟨none, some ⟨some "603"⟩, some ⟨some "42"⟩⟩
      ⟨.ok [("US", ["Hulu"])], .status 200⟩ =
    { result := .ok (.statusMsg "rejected"
        "Movie is available on the following streaming services: Hulu.", 200),
      calls := [.get (providersUrl testConfig "603"),
                .post "http://jellyseerr.local/request/42/decline"] } := by
  decide

/-- The regex attempt never succeeds at the end of the string: `\d+` needs
at least one digit. -/
theorem tryMatch_nil (pre : List Char) : tryMatch pre [] = none := by
  unfold tryMatch
  split
  · simp
  · rfl

/-- Moving the scan one character forward shifts the passed prefix. -/
theorem take_reverse_shift (n : Nat) (c : Char) (l pre : List Char) :
    (((c :: l).take (n + 1)).reverse ++ pre) = ((l.take n).reverse ++ (c :: pre)) := by
  simp [List.take_succ_cons, List.reverse_cons, List.append_assoc]

/-- The scan of re.search returns the attempt at position `i` whenever that
attempt succeeds and every earlier attempt fails. -/
theorem searchFrom_first :
    ∀ (i : Nat) (rest pre d : List Char),
      tryMatch ((rest.take i).reverse ++ pre) (rest.drop i) = some d →
      (∀ k, k < i → tryMatch ((rest.take k).reverse ++ pre) (rest.drop k) = none) →
      searchFrom pre rest = some d := by
  intro i
  induction i with
  | zero =>
    intro rest pre d h _
    cases rest with
    | nil => rw [List.drop_nil, tryMatch_nil] at h; exact absurd h (by simp)
    | cons c rest =>
      simp only [List.take_zero, List.reverse_nil, List.nil_append,
        List.drop_zero] at h
      simp [searchFrom, h]
  | succ i ih =>
    intro rest pre d h hk
    cases rest with
    | nil => rw [List.drop_nil, tryMatch_nil] at h; exact absurd h (by simp)
    | cons c rest =>
      have h0 := hk 0 (Nat.succ_pos i)
      simp only [List.take_zero, List.reverse_nil, List.nil_append,
        List.drop_zero] at h0
      rw [searchFrom, h0]
      rw [take_reverse_shift, List.drop_succ_cons] at h
      refine ih rest (c :: pre) d h ?_
      intro k hki
      have := hk (k + 1) (Nat.succ_lt_succ hki)
      rw [take_reverse_shift, List.drop_succ_cons] at this
      exact this

/-- If the scan of re.search succeeds, some position's attempt succeeds
with the same result. -/
theorem searchFrom_some :
    ∀ (rest pre d : List Char), searchFrom pre rest = some d →
      ∃ i, tryMatch ((rest.take i).reverse ++ pre) (rest.drop i) = some d := by
  intro rest
  induction rest with
  | nil => intro pre d h; simp [searchFrom] at h
  | cons c rest ih =>
    intro pre d h
    rw [searchFrom] at h
    cases htm : tryMatch pre (c :: rest) with
    | some ds =>
      rw [htm] at h
      refine ⟨0, ?_⟩
      simpa using htm.trans h
    | none =>
      rw [htm] at h
      obtain ⟨i, hi⟩ := ih (c :: pre) d h
      refine ⟨i + 1, ?_⟩
      rw [take_reverse_shift, List.drop_succ_cons]
      exact hi

/-- Anatomy of a successful regex attempt: the eight previous characters
spell the tag, and the text at the position is a non-empty digit run
followed by a closing bracket. -/
theorem tryMatch_some_decomp (pre rest d : List Char)
    (h : tryMatch pre rest = some d) :
    (pre.take 8).reverse = tagChars ∧ d ≠ [] ∧ (∀ c ∈ d, isPyDigit c = true) ∧
      ∃ b, rest = d ++ ']' :: b := by
  unfold tryMatch at h
  split at h
  case isFalse => exact absurd h (by simp)
  case isTrue htag =>
    simp only at h
    by_cases hnil : rest.takeWhile isPyDigit = []
    · rw [if_pos hnil] at h; exact absurd h (by simp)
    · rw [if_neg hnil] at h
      cases hdw : rest.dropWhile isPyDigit with
      | nil => rw [hdw] at h; exact absurd h (by simp)
      | cons x xs =>
        rw [hdw] at h
        have h2 : (if x = ']' then some (rest.takeWhile isPyDigit)
            else none) = some d := h
        by_cases hx : x = ']'
        · rw [if_pos hx] at h2
          have hd : rest.takeWhile isPyDigit = d := by
            simpa using h2
          subst hx
          refine ⟨htag, hd ▸ hnil, ?_, xs, ?_⟩
          · intro c hc
            exact List.mem_takeWhile_imp (hd ▸ hc)
          · conv_lhs => rw [← List.takeWhile_append_dropWhile
              (p := isPyDigit) (l := rest)]
            rw [hd, hdw]
        · rw [if_neg hx] at h2; exact absurd h2 (by simp)

/-- A non-empty all-digit run followed by a closing bracket is taken whole
by `takeWhile isPyDigit`. -/
theorem takeWhile_digits_append (d b : List Char)
    (hd : ∀ c ∈ d, isPyDigit c = true) :
    (d ++ ']' :: b).takeWhile isPyDigit = d ∧
    (d ++ ']' :: b).dropWhile isPyDigit = ']' :: b := by
  induction d with
  | nil =>
    have hrb : isPyDigit ']' = false := by decide
    constructor
    · simp [List.takeWhile_cons, hrb]
    · simp [List.dropWhile_cons, hrb]
  | cons c d ih =>
    have hc : isPyDigit c = true := hd c (List.mem_cons_self c d)
    have ih2 := ih (fun x hx => hd x (List.mem_cons_of_mem c hx))
    constructor
    · simp [List.takeWhile_cons, hc, ih2.1]
    · simp [List.dropWhile_cons, hc, ih2.2]

/-- The regex attempt succeeds right after the tag, on a non-empty digit
run followed by a closing bracket. -/
theorem tryMatch_occurrence (pre0 d b : List Char)
    (hne : d ≠ []) (hd : ∀ c ∈ d, isPyDigit c = true) :
    tryMatch (tagChars.reverse ++ pre0) (d ++ ']' :: b) = some d := by
  have htw := takeWhile_digits_append d b hd
  unfold tryMatch
  rw [if_pos]
  · simp only [htw.1, htw.2, if_neg hne]
    simp
  · have h8 : tagChars.reverse.length = 8 := by decide
    rw [List.take_left' h8, List.reverse_reverse]

/-- An occurrence of the bracket pattern in the string makes the regex
attempt at its digit position succeed with exactly those digits. -/
theorem matchAtPos_of_decomp (s : String) (a d b : List Char)
    (hs : s.data = a ++ (tagChars ++ (d ++ ']' :: b)))
    (hne : d ≠ []) (hd : ∀ c ∈ d, isPyDigit c = true) :
    matchAtPos s (a.length + 8) = some d := by
  unfold matchAtPos
  have hlen : (a ++ tagChars).length = a.length + 8 := by
    have : tagChars.length = 8 := by decide
    simp [List.length_append, this]
  have hs2 : s.data = (a ++ tagChars) ++ (d ++ ']' :: b) := by
    rw [hs, List.append_assoc]
  rw [hs2, List.take_left' hlen, List.drop_left' hlen, List.reverse_append]
  exact tryMatch_occurrence a.reverse d b hne hd

/-- The extractor returns the match of the first succeeding position. -/
theorem get_of_first (s : String) (i : Nat) (d : List Char)
    (h : matchAtPos s i = some d)
    (hk : ∀ k, k < i → matchAtPos s k = none) :
    get_tmdbid_from_filename s = some (String.mk d) := by
  unfold get_tmdbid_from_filename
  unfold matchAtPos at h hk
  have hsf := searchFrom_first i s.data [] d
    (by rw [List.append_nil]; exact h)
    (by intro k hki; rw [List.append_nil]; exact hk k hki)
  rw [hsf]
  rfl

/-- If any position's attempt succeeds, the extractor returns something. -/
theorem get_some_of_matchAtPos (s : String) (i : Nat) (d : List Char)
    (h : matchAtPos s i = some d) :
    ∃ t : String, get_tmdbid_from_filename s = some t := by
  have hex : ∃ j, (matchAtPos s j).isSome := ⟨i, by rw [h]; rfl⟩
  have hj := Nat.find_spec hex
  obtain ⟨d2, hd2⟩ := Option.isSome_iff_exists.mp hj
  refine ⟨String.mk d2, get_of_first s (Nat.find hex) d2 hd2 ?_⟩
  intro k hk
  have hnot := Nat.find_min hex hk
  cases hmk : matchAtPos s k with
  | none => rfl
  | some d3 => exact absurd (by rw [hmk]; rfl) hnot

/-- Whatever the extractor returns decomposes the input around an
occurrence of the bracket pattern whose digits are the result. -/
theorem get_decomp_of_some (s t : String)
    (h : get_tmdbid_from_filename s = some t) :
    ∃ a b, s.data = a ++ (tagChars ++ (t.data ++ ']' :: b)) ∧
      t.data ≠ [] ∧ ∀ c ∈ t.data, isPyDigit c = true := by
  unfold get_tmdbid_from_filename at h
  cases hsf : searchFrom [] s.data with
  | none => rw [hsf] at h; exact absurd h (by simp)
  | some d =>
    rw [hsf] at h
    have htd : t.data = d := by
      have : String.mk d = t := by simpa using h
      rw [← this]
    obtain ⟨i, hi⟩ := searchFrom_some s.data [] d hsf
    rw [List.append_nil] at hi
    obtain ⟨htag, hne, hdig, b, hb⟩ := tryMatch_some_decomp _ _ _ hi
    have htake : s.data.take i =
        ((s.data.take i).reverse.drop 8).reverse ++ tagChars := by
      have h2 : (s.data.take i).reverse.take 8 = tagChars.reverse := by
        rw [← htag, List.reverse_reverse]
      calc s.data.take i
          = (s.data.take i).reverse.reverse := (List.reverse_reverse _).symm
        _ = ((s.data.take i).reverse.take 8 ++
              (s.data.take i).reverse.drop 8).reverse := by
            rw [List.take_append_drop]
        _ = ((s.data.take i).reverse.drop 8).reverse ++ tagChars := by
            rw [List.reverse_append, h2, List.reverse_reverse]
    refine ⟨((s.data.take i).reverse.drop 8).reverse, b, ?_, ?_, ?_⟩
    · rw [htd]
      calc s.data = s.data.take i ++ s.data.drop i :=
            (List.take_append_drop i s.data).symm
        _ = (((s.data.take i).reverse.drop 8).reverse ++ tagChars) ++
              (d ++ ']' :: b) := by rw [← htake, ← hb]
        _ = ((s.data.take i).reverse.drop 8).reverse ++
              (tagChars ++ (d ++ ']' :: b)) := by rw [List.append_assoc]
    · rw [htd]; exact hne
    · rw [htd]; exact hdig

/-- C4 counterexample: the string `[tmdbid-7][tmdbid-12345]` contains the
bracket pattern `[tmdbid-12345]` (the explicit decomposition below), yet
the Extractor returns `"7"`, not `"12345"` — re.search takes the leftmost
match, so a path containing `[tmdbid-12345]` does not always yield
`"12345"`. -/
theorem claim_C4_counterexample :
    ("[tmdbid-7][tmdbid-12345]").data =
      "[tmdbid-7]".data ++ (tagChars ++ ("12345".data ++ ']' :: [])) ∧
    get_tmdbid_from_filename "[tmdbid-7][tmdbid-12345]" = some "7" ∧
    some "7" ≠ some "12345" := by
  refine ⟨by decide, by decide, by decide⟩

/-- C4 (amended): for every string containing a substring of the form
`[tmdbid-<one or more digits>]` — digits being the Unicode Nd characters
that `\d` matches, `isPyDigit` — in any position, the Extractor returns
the digit string of one of the bracket patterns the string contains (the
leftmost match); in particular a path whose only such pattern is
`[tmdbid-12345]` yields `"12345"`. -/
theorem claim_C4_theorem (s : String) (a d b : List Char)
    (hs : s.data = a ++ (tagChars ++ (d ++ ']' :: b)))
    (hne : d ≠ []) (hd : ∀ c ∈ d, isPyDigit c = true) :
    ∃ t : String, get_tmdbid_from_filename s = some t ∧ t.data ≠ [] ∧
      (∀ c ∈ t.data, isPyDigit c = true) ∧
      ∃ a2 b2, s.data = a2 ++ (tagChars ++ (t.data ++ ']' :: b2)) := by
  have hm := matchAtPos_of_decomp s a d b hs hne hd
  obtain ⟨t, ht⟩ := get_some_of_matchAtPos s (a.length + 8) d hm
  obtain ⟨a2, b2, h1, h2, h3⟩ := get_decomp_of_some s t ht
  exact ⟨t, ht, h2, h3, a2, b2, h1⟩

/-- Witness for C4 at the concrete path `movie [tmdbid-603].mkv`. -/
theorem claim_C4_witness :
    ∃ t : String,
      get_tmdbid_from_filename "movie [tmdbid-603].mkv" = some t ∧
      t.data ≠ [] ∧ (∀ c ∈ t.data, isPyDigit c = true) ∧
      ∃ a2 b2, ("movie [tmdbid-603].mkv").data =
        a2 ++ (tagChars ++ (t.data ++ ']' :: b2)) :=
  claim_C4_theorem "movie [tmdbid-603].mkv" "movie ".data "603".data
    ".mkv".data (by decide) (by decide) (by decide)

/-- C5: for every string that contains no substring of the form
`[tmdbid-<one or more digits>]` — digits being the Unicode Nd characters
that `\d` matches, `isPyDigit` — the Extractor returns None.  The
embedding `get_tmdbid_from_filename` is a total function, matching the
fact that `re.search` never raises on a str input. -/
theorem claim_C5_theorem (s : String)
    (h : ¬ ∃ a d b, s.data = a ++ (tagChars ++ (d ++ ']' :: b)) ∧
      d ≠ [] ∧ ∀ c ∈ d, isPyDigit c = true) :
    get_tmdbid_from_filename s = none := by
  cases hg : get_tmdbid_from_filename s with
  | none => rfl
  | some t =>
    obtain ⟨a, b, h1, h2, h3⟩ := get_decomp_of_some s t hg
    exact absurd ⟨a, t.data, b, h1, h2, h3⟩ h

/-- Witness for C5 at the concrete path `The.Matrix.1999.mkv`. -/
theorem claim_C5_witness :
    get_tmdbid_from_filename "The.Matrix.1999.mkv" = none :=
  claim_C5_theorem "The.Matrix.1999.mkv" (by
    rintro ⟨a, d, b, h1, h2, h3⟩
    have hm := matchAtPos_of_decomp "The.Matrix.1999.mkv" a d b h1 h2 h3
    obtain ⟨t, ht⟩ := get_some_of_matchAtPos _ _ _ hm
    have hn : get_tmdbid_from_filename "The.Matrix.1999.mkv" = none := by
      decide
    rw [hn] at ht
    exact absurd ht (by simp))

/-- C10: on a string with more than one bracket pattern, the Extractor
returns the digit run (Unicode Nd digits, via `isPyDigit` inside
`matchAtPos`) of the leftmost one.  Position `i` carries the first
succeeding regex attempt (every earlier attempt fails) and position `j` a
further one; the result is the match at `i`. -/
theorem claim_C10_theorem (s : String) (i j : Nat) (d : List Char)
    (h : matchAtPos s i = some d)
    (hk : ∀ k, k < i → matchAtPos s k = none)
    (_more : i < j ∧ (matchAtPos s j).isSome = true) :
    get_tmdbid_from_filename s = some (String.mk d) :=
  get_of_first s i d h hk

/-- Witness for C10 at the concrete two-pattern string
`[tmdbid-1][tmdbid-23]`: position 8 yields the leftmost match `1`,
position 18 the later match `23`, and the Extractor returns `"1"`. -/
theorem claim_C10_witness :
    get_tmdbid_from_filename "[tmdbid-1][tmdbid-23]" =
      some (String.mk [Char.ofNat 49]) :=
  claim_C10_theorem "[tmdbid-1][tmdbid-23]" 8 18 [Char.ofNat 49]
    (by decide) (by decide) (by decide)

/-- C2: the code filters the upstream flatrate names with
`provider["provider_name"] in PROVIDER_LIST`, but `PROVIDER_LIST` is the
config string rendering of the list, so this is a substring test, not
allow-list membership.  First conjunct: an upstream name `"Netflix"` that
is not a member of the default allow-list is nevertheless returned,
because it is a substring of the stored string — the failing input.
Second conjunct: `"Netflix"` is indeed not an allow-list member.  Third
conjunct: on the claim's own example the code does produce
`["Netflix basic with Ads"]`. -/
theorem claim_C2_code_eval :
    get_providers writtenProviderList (.ok [("US", ["Netflix"])]) =
      .ok ["Netflix"] ∧
    "Netflix" ∉ DEFAULT_PROVIDER_LIST ∧
    get_providers (pyStrOfList ["Netflix basic with Ads"])
      (.ok [("US", ["Netflix basic with Ads", "SomeObscureService"])]) =
      .ok ["Netflix basic with Ads"] :=
  ⟨by decide, by decide, by decide⟩

/-- C3 counterexample: a transport failure of the lookup produces exactly
the same return value as a successful lookup with no providers — the
empty list — so there is no failure signal distinguishable from the
successful empty AvailabilitySet; and a malformed JSON body (parsed
outside the try block) escapes as an exception rather than a failure
signal. -/
theorem claim_C3_counterexample :
    get_providers writtenProviderList .netError =
      get_providers writtenProviderList (.ok []) ∧
    get_providers writtenProviderList .netError = .ok [] ∧
    get_providers writtenProviderList .badJson = .error .jsonDecodeError :=
  ⟨rfl, rfl, rfl⟩

/-- C3 (amended): on network failure or a non-2xx response `get_providers`
catches the `RequestException` and returns the empty list, which is
indistinguishable from the successful empty AvailabilitySet; a malformed
JSON body in a 2xx response escapes as an exception because
`response.json()` is parsed outside the try block; a successful response
yields the filtered US flatrate names. -/
theorem claim_C3_theorem (provider_list : String)
    (results : List (String × List String)) :
    get_providers provider_list .netError = .ok [] ∧
    get_providers provider_list .badJson = .error .jsonDecodeError ∧
    get_providers provider_list (.ok results) =
      .ok (((List.lookup "US" results).getD []).filter
        (fun name => strContains provider_list name)) :=
  ⟨rfl, rfl, rfl⟩

/-- C7: a payload whose notification_type is TEST_NOTIFICATION makes the
endpoint return status received with HTTP 200 and issue no outbound call,
whatever the rest of the payload, the configuration and the network would
have answered. -/
theorem claim_C7_theorem (cfg : Config) (data : Payload) (env : Env)
    (h : data.notification_type = some "TEST_NOTIFICATION") :
    webhook_listener cfg data env =
      { result := .ok (.statusMsg "received"
          "Test notification received.", 200),
        calls := [] } := by
  have hbeq : (data.notification_type == some "TEST_NOTIFICATION") = true := by
    rw [h]; rfl
  simp [webhook_listener, hbeq]

/-- Witness for C7 at a concrete test payload. -/
theorem claim_C7_witness :
    webhook_listener testConfig ⟨some "TEST_NOTIFICATION", none, none⟩
      ⟨.ok [], .status 200⟩ =
    { result := .ok (.statusMsg "received"
        "Test notification received.", 200),
      calls := [] } :=
  claim_C7_theorem testConfig ⟨some "TEST_NOTIFICATION", none, none⟩
    ⟨.ok [], .status 200⟩ rfl

/-- C6: a non-test payload from which no TMDB ID can be obtained (the
`media` object or its `tmdbId` absent, or the ID the empty string — the
falsy values of `media.get("tmdbId", {})`) makes the endpoint return the
JSON body with the error field and HTTP 400, without raising and without
issuing any outbound call. -/
theorem claim_C6_theorem (cfg : Config) (data : Payload) (env : Env)
    (h1 : data.notification_type ≠ some "TEST_NOTIFICATION")
    (h2 : truthyStr ((data.media.getD ⟨none⟩).tmdbId) = false) :
    webhook_listener cfg data env =
      { result := .ok (.errorBody "No TMDB ID provided", 400),
        calls := [] } := by
  have hbeq : (data.notification_type == some "TEST_NOTIFICATION") = false :=
    beq_eq_false_iff_ne.mpr h1
  simp [webhook_listener, hbeq, h2]

/-- Witness for C6 at a concrete payload with no media object. -/
theorem claim_C6_witness :
    webhook_listener testConfig ⟨none, none, none⟩ ⟨.ok [], .status 200⟩ =
    { result := .ok (.errorBody "No TMDB ID provided", 400),
      calls := [] } :=
  claim_C6_theorem testConfig ⟨none, none, none⟩ ⟨.ok [], .status 200⟩
    (by decide) rfl

/-- C1: for a non-test payload carrying a TMDB ID and a request_id, under
a successful provider lookup and a completing status-update POST: if the
filtered provider list is non-empty the verdict is Decline — the calls are
exactly one lookup GET and one POST to
`{base_url}/request/{request_id}/decline` — and if it is empty the verdict
is Approve with exactly one POST to
`{base_url}/request/{request_id}/approve`, keyed by the payload's
request_id in both cases. -/
theorem claim_C1_theorem (cfg : Config) (data : Payload) (t rid : String)
    (results : List (String × List String)) (c : Nat)
    (h1 : data.notification_type ≠ some "TEST_NOTIFICATION")
    (h2 : data.media = some ⟨some t⟩) (h3 : t ≠ "")
    (h4 : data.request = some ⟨some rid⟩) :
    (((List.lookup "US" results).getD []).filter
        (fun name => strContains cfg.provider_list name) ≠ [] →
      (webhook_listener cfg data ⟨.ok results, .status c⟩).calls =
        [.get (providersUrl cfg t),
         .post (requestStatusUrl cfg rid "decline")] ∧
      (webhook_listener cfg data ⟨.ok results, .status c⟩).result =
        .ok (.statusMsg "rejected"
          (REJECT_MSG ++ " " ++ String.intercalate ", "
            (((List.lookup "US" results).getD []).filter
              (fun name => strContains cfg.provider_list name)) ++ "."),
          200)) ∧
    (((List.lookup "US" results).getD []).filter
        (fun name => strContains cfg.provider_list name) = [] →
      (webhook_listener cfg data ⟨.ok results, .status c⟩).calls =
        [.get (providersUrl cfg t),
         .post (requestStatusUrl cfg rid "approve")] ∧
      (webhook_listener cfg data ⟨.ok results, .status c⟩).result =
        .ok (.statusMsg "accepted" ACCPET_MSG, 200)) := by
  have hbeq : (data.notification_type == some "TEST_NOTIFICATION") = false :=
    beq_eq_false_iff_ne.mpr h1
  have htr : truthyStr (some t) = true := by
    simp [truthyStr, h3]
  constructor
  · intro hp
    simp [webhook_listener, hbeq, h2, h4, htr, get_providers,
      check_movie_on_services, hp]
  · intro hp
    simp [webhook_listener, hbeq, h2, h4, htr, get_providers,
      check_movie_on_services, hp]

/-- Witness for C1 at the concrete payload tmdbId 603, request_id 42, with
the lookup answering a US flatrate list `[Hulu]`. -/
theorem claim_C1_witness :
    (webhook_listener testConfig ⟨none, some ⟨some "603"⟩, some ⟨some "42"⟩⟩
        ⟨.ok [("US", ["Hulu"])], .status 200⟩).calls =
      [.get (providersUrl testConfig "603"),
       .post (requestStatusUrl testConfig "42" "decline")] ∧
    (webhook_listener testConfig ⟨none, some ⟨some "603"⟩, some ⟨some "42"⟩⟩
        ⟨.ok [("US", ["Hulu"])], .status 200⟩).result =
      .ok (.statusMsg "rejected"
        "Movie is available on the following streaming services: Hulu.",
        200) := by
  have h := (claim_C1_theorem testConfig
    ⟨none, some ⟨some "603"⟩, some ⟨some "42"⟩⟩ "603" "42"
    [("US", ["Hulu"])] 200 (by decide) rfl (by decide) rfl).1 (by decide)
  refine ⟨h.1, ?_⟩
  rw [h.2]
  decide

/-- C8 counterexample: at the concrete payload tmdbId 603 / request_id 42,
with the lookup succeeding (allow-listed Hulu) and the status-update POST
raising a RequestException, the exception escapes the handler uncaught —
the outbound-call failure is not converted into a structured result. -/
theorem claim_C8_counterexample :
    (webhook_listener testConfig ⟨none, some ⟨some "603"⟩, some ⟨some "42"⟩⟩
      ⟨.ok [("US", ["Hulu"])], .raise⟩).result =
      .error .requestException := by
  decide

/-- C8 (amended): the handler catches only the transport failures of the
provider-lookup GET (treated as an empty provider list, hence Approve);
an exception from the status-update POST, a malformed provider-lookup
JSON body, and a payload without the request key all propagate uncaught
out of the handler. -/
theorem claim_C8_theorem (cfg : Config) (data : Payload) (t rid : String)
    (results : List (String × List String)) (c : Nat)
    (h1 : data.notification_type ≠ some "TEST_NOTIFICATION")
    (h2 : data.media = some ⟨some t⟩) (h3 : t ≠ "")
    (h4 : data.request = some ⟨some rid⟩) :
    (webhook_listener cfg data ⟨.netError, .status c⟩).result =
      .ok (.statusMsg "accepted" ACCPET_MSG, 200) ∧
    (webhook_listener cfg data ⟨.ok results, .raise⟩).result =
      .error .requestException ∧
    (webhook_listener cfg data ⟨.badJson, .status c⟩).result =
      .error .jsonDecodeError ∧
    (∀ data2 : Payload,
      data2.notification_type ≠ some "TEST_NOTIFICATION" →
      data2.media = some ⟨some t⟩ → data2.request = none →
      (webhook_listener cfg data2 ⟨.ok results, .status c⟩).result =
        .error (.keyError "request")) := by
  have hbeq : (data.notification_type == some "TEST_NOTIFICATION") = false :=
    beq_eq_false_iff_ne.mpr h1
  have htr : truthyStr (some t) = true := by
    simp [truthyStr, h3]
  refine ⟨?_, ?_, ?_, ?_⟩
  · simp [webhook_listener, hbeq, h2, h4, htr, get_providers,
      check_movie_on_services]
  · by_cases hp : ((List.lookup "US" results).getD []).filter
        (fun name => strContains cfg.provider_list name) = []
    · simp [webhook_listener, hbeq, h2, h4, htr, get_providers,
        check_movie_on_services, hp]
    · simp [webhook_listener, hbeq, h2, h4, htr, get_providers,
        check_movie_on_services, hp]
  · simp [webhook_listener, hbeq, h2, h4, htr, get_providers]
  · intro data2 g1 g2 g3
    have gbeq : (data2.notification_type == some "TEST_NOTIFICATION") =
        false := beq_eq_false_iff_ne.mpr g1
    simp [webhook_listener, gbeq, g2, g3, htr, get_providers]

/-- Witness for C8 at the concrete payload tmdbId 603 / request_id 42 and
lookup flatrate list `[Hulu]`. -/
theorem claim_C8_witness :
    (webhook_listener testConfig ⟨none, some ⟨some "603"⟩, some ⟨some "42"⟩⟩
        ⟨.netError, .status 200⟩).result =
      .ok (.statusMsg "accepted" ACCPET_MSG, 200) ∧
    (webhook_listener testConfig ⟨none, some ⟨some "603"⟩, some ⟨some "42"⟩⟩
        ⟨.ok [("US", ["Hulu"])], .raise⟩).result =
      .error .requestException ∧
    (webhook_listener testConfig ⟨none, some ⟨some "603"⟩, some ⟨some "42"⟩⟩
        ⟨.badJson, .status 200⟩).result =
      .error .jsonDecodeError ∧
    (webhook_listener testConfig ⟨none, some ⟨some "603"⟩, none⟩
        ⟨.ok [("US", ["Hulu"])], .status 200⟩).result =
      .error (.keyError "request") := by
  have h := claim_C8_theorem testConfig
    ⟨none, some ⟨some "603"⟩, some ⟨some "42"⟩⟩ "603" "42"
    [("US", ["Hulu"])] 200 (by decide) rfl (by decide) rfl
  exact ⟨h.1, h.2.1, h.2.2.1,
    h.2.2.2 ⟨none, some ⟨some "603"⟩, none⟩ (by decide) rfl rfl⟩

/-- C9: every status-message body the endpoint returns carries one of the
status tokens received, rejected, accepted or error (the code in fact
never produces error as a status token) together with HTTP 200; on the
end-to-end Decline example the body is status rejected with the message
listing the filtered providers and ending in `Hulu.`, with the decline
POST to `/request/42/decline`; on the empty-flatrate example the body is
status accepted. -/
theorem claim_C9_theorem :
    (∀ (cfg : Config) (data : Payload) (env : Env) (st msg : String)
        (code : Nat),
      (webhook_listener cfg data env).result = .ok (.statusMsg st msg, code) →
      (st = "received" ∨ st = "rejected" ∨ st = "accepted" ∨ st = "error") ∧
        code = 200) ∧
    webhook_listener testConfig ⟨none, some ⟨some "603"⟩, some ⟨some "42"⟩⟩
        ⟨.ok [("US", ["Hulu"])], .status 200⟩ =
      { result := .ok (.statusMsg "rejected"
          "Movie is available on the following streaming services: Hulu.",
          200),
        calls := [.get (providersUrl testConfig "603"),
                  .post (requestStatusUrl testConfig "42" "decline")] } ∧
    (webhook_listener testConfig ⟨none, some ⟨some "603"⟩, some ⟨some "42"⟩⟩
        ⟨.ok [("US", [])], .status 200⟩).result =
      .ok (.statusMsg "accepted" ACCPET_MSG, 200) := by
  refine ⟨?_, by decide, by decide⟩
  intro cfg data env st msg code h
  obtain ⟨lk, po⟩ := env
  by_cases h1 : (data.notification_type == some "TEST_NOTIFICATION") = true
  · simp [webhook_listener, h1] at h
    exact ⟨Or.inl h.1.1.symm, h.2.symm⟩
  · rw [Bool.not_eq_true] at h1
    by_cases h2 : truthyStr ((data.media.getD ⟨none⟩).tmdbId) = true
    · cases lk with
      | netError =>
        cases hrq : data.request with
        | none => simp [webhook_listener, h1, h2, hrq, get_providers] at h
        | some req =>
          cases hrid : req.request_id with
          | none =>
            simp [webhook_listener, h1, h2, hrq, hrid, get_providers,
              check_movie_on_services] at h
          | some rid =>
            cases po with
            | raise =>
              simp [webhook_listener, h1, h2, hrq, hrid, get_providers,
                check_movie_on_services] at h
            | status c =>
              simp [webhook_listener, h1, h2, hrq, hrid, get_providers,
                check_movie_on_services] at h
              exact ⟨Or.inr (Or.inr (Or.inl h.1.1.symm)), h.2.symm⟩
      | badJson => simp [webhook_listener, h1, h2, get_providers] at h
      | ok results =>
        cases hrq : data.request with
        | none => simp [webhook_listener, h1, h2, hrq, get_providers] at h
        | some req =>
          cases hrid : req.request_id with
          | none =>
            simp [webhook_listener, h1, h2, hrq, hrid, get_providers] at h
          | some rid =>
            by_cases hp : ((List.lookup "US" results).getD []).filter
                (fun name => strContains cfg.provider_list name) = []
            · cases po with
              | raise =>
                simp [webhook_listener, h1, h2, hrq, hrid, get_providers,
                  check_movie_on_services, hp] at h
              | status c =>
                simp [webhook_listener, h1, h2, hrq, hrid, get_providers,
                  check_movie_on_services, hp] at h
                exact ⟨Or.inr (Or.inr (Or.inl h.1.1.symm)), h.2.symm⟩
            · cases po with
              | raise =>
                simp [webhook_listener, h1, h2, hrq, hrid, get_providers,
                  check_movie_on_services, hp] at h
              | status c =>
                simp [webhook_listener, h1, h2, hrq, hrid, get_providers,
                  check_movie_on_services, hp] at h
                exact ⟨Or.inr (Or.inl h.1.1.symm), h.2.symm⟩
    · rw [Bool.not_eq_true] at h2
      simp [webhook_listener, h1, h2] at h

/-- Witness for C9: the universally quantified conjunct applied at the
Decline example. -/
theorem claim_C9_witness :
    ("rejected" = "received" ∨ "rejected" = "rejected" ∨
      "rejected" = "accepted" ∨ "rejected" = "error") ∧ (200 : Nat) = 200 :=
  claim_C9_theorem.1 testConfig ⟨none, some ⟨some "603"⟩, some ⟨some "42"⟩⟩
    ⟨.ok [("US", ["Hulu"])], .status 200⟩ "rejected"
    "Movie is available on the following streaming services: Hulu." 200
    (by decide)
